import Mathlib

/-!
Verification of the MCP apps demo protocol layer
================================================

Shallow embedding of the protocol core of the `mcp-apps-demo` repository:

* the access filter (`filterTools` middleware from the mcp-apps skill /
  `route.ts` pattern),
* the `MCPApp` iframe communication module (request correlation,
  timeouts, notification routing) from
  `.cline/skills/mcp-apps/SKILL.md`,
* the flight/hotel booking data layer (`searchFlights`, `generateSeatMap`,
  `selectSeats`, `createBooking`, `createHotelBooking`) and the tool
  handlers of `mcp-server/server.ts`.

Modelling conventions, used throughout:

* JavaScript numbers are modelled as `Int`/`Nat`/`ℚ` with exact
  arithmetic.  The rounding of IEEE doubles to 53-bit significands is not
  modelled; it can change the concrete values of the pseudo-random streams
  but none of the properties proved below depend on those values.
* `Math.random()` and `Date.now()` are modelled as explicit parameters
  (oracles / supplies) threaded through the definitions.
* Mutable `Map`s become association lists with `Map.get`/`set`/`delete`
  semantics; promise continuations become an append-only settlement log.
-/

namespace McpApps

/-! ## Access filter (`filterTools`)

From the mcp-apps skill, `filterTools` middleware:

```js
return tools.filter((tool) => {
  const resourceUri = tool._meta?.["ui/resourceUri"];
  if (!resourceUri) return true;
  const match = resourceUri.match(/ui:\/\/([^/]+)/);
  const appId = match?.[1];
  return appId && connectedApps.includes(appId);
});
```
-/

/-- A tool as seen by the filter: its name and the optional
`_meta["ui/resourceUri"]` back-reference. -/
structure Tool where
  name : String
  uiResourceId : Option String
deriving DecidableEq, Repr

/-- The JS regex search `uri.match(/ui:\/\/([^/]+)/)`: starting from each
position in turn, try to read the literal `ui://` followed by a nonempty
run of non-`/` characters; the capture group is that run.  The regex is
not anchored and does not require a `/` after the namespace. -/
def matchUiNamespace : List Char → Option (List Char)
  | [] => none
  | c :: rest =>
    let s := c :: rest
    if s.take 5 = "ui://".data then
      let ns := (s.drop 5).takeWhile (fun d => d ≠ '/')
      if ns.isEmpty then matchUiNamespace rest else some ns
    else matchUiNamespace rest

/-- `const appId = uri.match(/ui:\/\/([^/]+)/)?.[1]` -/
def extractNamespace (uri : String) : Option String :=
  (matchUiNamespace uri.data).map (fun cs => String.mk cs)

/-- The `filterTools` middleware body (per-tool predicate inlined):
tools without a resource uri pass; otherwise the captured namespace must
be one of the connected apps; a failed match (`appId` undefined) is
falsy, so the tool is dropped. -/
def filterTools (tools : List Tool) (connectedApps : List String) : List Tool :=
  tools.filter fun t =>
    match t.uiResourceId with
    | none => true
    | some uri =>
      match extractNamespace uri with
      | some appId => connectedApps.contains appId
      | none => false

/-- Modelled from the spec's words (for comparison with the code's
`extractNamespace`, not a translation of any source function): an id of
the shape `ui://<namespace>/...` starts with the literal `ui://`, then a
nonempty namespace containing no `/`, then a `/`, then the rest. -/
def specUiPattern (uri : String) : Option String :=
  let cs := uri.data
  if cs.take 5 = "ui://".data then
    let rest := cs.drop 5
    let ns := rest.takeWhile (fun d => d ≠ '/')
    if ns.isEmpty then none
    else if (rest.drop ns.length).isEmpty then none
    else some (String.mk ns)
  else none

/-! ## The `MCPApp` channel (request correlation and notifications)

From `.cline/skills/mcp-apps/SKILL.md`, the iframe-side communication
module: a monotone `requestId` counter starting at 1, a
`pendingRequests` map from id to `{resolve, reject}` continuations, a
`notificationHandlers` map from method name to handler, and
`handleMessage` which settles pending requests by id and dispatches
notifications.  Continuation settlement is modelled as an append-only
log; notification handlers are functions returning `Except`, an
exception being the `.error` case. -/

/-- Opaque JSON payload carried in `params` / `result` / `error`; the
channel code never inspects these beyond presence. -/
inductive Json where
  | null
  | str (s : String)
  | num (n : Int)
deriving DecidableEq, Repr

/-- How the continuation of a pending request was settled. -/
inductive Settlement where
  /-- `resolve(data.result)` -/
  | resolved (result : Option Json)
  /-- `reject(data.error)` -/
  | rejected (error : Json)
  /-- `reject(new Error("Request timeout"))` -/
  | rejectedTimeout
  /-- `ChannelClosed` rejection at teardown (spec §4.2(c)). -/
  | rejectedClosed
deriving DecidableEq, Repr

/-- A notification handler; `.error` models a thrown exception. -/
def Handler : Type := Option Json → Except String Unit

/-- A JSON-RPC envelope as read off `event.data` by `handleMessage`:
every field the code tests, each `Option` for possible absence. -/
structure Envelope where
  jsonrpc : String
  id : Option Nat
  method : Option String
  params : Option Json
  result : Option Json
  error : Option Json
deriving Repr

/-- State of one `MCPApp` channel. -/
structure ChannelState where
  /-- `let requestId = 1` — the next id to allocate. -/
  requestId : Nat
  /-- ids of `pendingRequests` whose continuations are registered. -/
  pendingRequests : List Nat
  /-- `notificationHandlers` map, in insertion order. -/
  handlers : List (String × Handler)
  /-- settlements delivered to continuations, oldest first. -/
  settlements : List (Nat × Settlement)

/-- Channel state at `init()`. -/
def initChannel : ChannelState :=
  { requestId := 1, pendingRequests := [], handlers := [], settlements := [] }

/-- `sendRequest(method, params)`: `const id = requestId++`, register the
continuation, post the request envelope.  Returns the new state, the
allocated id and the posted envelope. -/
def sendRequest (s : ChannelState) (method : String) (params : Option Json) :
    ChannelState × Nat × Envelope :=
  let id := s.requestId
  ({ s with
      requestId := id + 1
      pendingRequests := id :: s.pendingRequests },
   id,
   { jsonrpc := "2.0", id := some id, method := some method, params := params,
     result := none, error := none })

/-- The settlement carried by a response envelope:
`if (data.error) reject(data.error) else resolve(data.result)`. -/
def settleOf (e : Envelope) : Settlement :=
  match e.error with
  | some err => .rejected err
  | none => .resolved e.result

/-- First half of `handleMessage`: if the envelope has an `id` that is in
`pendingRequests`, delete the entry and settle its continuation. -/
def handleResponsePart (s : ChannelState) (e : Envelope) : ChannelState :=
  match e.id with
  | some i =>
    if i ∈ s.pendingRequests then
      { s with
          pendingRequests := s.pendingRequests.erase i
          settlements := s.settlements ++ [(i, settleOf e)] }
    else s
  | none => s

/-- `notificationHandlers.get(method)` (`Map.get`). -/
def lookupHandler (hs : List (String × Handler)) (m : String) : Option Handler :=
  (hs.find? (fun p => p.1 = m)).map (fun p => p.2)

/-- `Map.set`: replace the value of an existing key, else append. -/
def setAssoc (l : List (String × Handler)) (m : String) (h : Handler) :
    List (String × Handler) :=
  match l with
  | [] => [(m, h)]
  | (k, v) :: t => if k = m then (m, h) :: t else (k, v) :: setAssoc t m h

/-- `onNotification(method, handler)`: a plain `Map.set`, silently
replacing any handler previously registered for the method. -/
def onNotification (s : ChannelState) (m : String) (h : Handler) : ChannelState :=
  { s with handlers := setAssoc s.handlers m h }

/-- Second half of `handleMessage`: for `data.id === undefined &&
data.method` (string truthiness: an absent or empty method name fails
the guard), look up the handler and invoke it with `data.params`.
Returns the state, the list of handler invocations performed (method and
argument), and the exception thrown by the handler, if any — the source
has no try/catch here, so a thrown exception escapes `handleMessage`
uncaught. -/
def handleNotificationPart (s : ChannelState) (e : Envelope) :
    ChannelState × List (String × Option Json) × Option String :=
  match e.id with
  | some _ => (s, [], none)
  | none =>
    match e.method with
    | none => (s, [], none)
    | some m =>
      if m = "" then (s, [], none)
      else
        match lookupHandler s.handlers m with
        | none => (s, [], none)
        | some h =>
          match h e.params with
          | .ok _ => (s, [(m, e.params)], none)
          | .error err => (s, [(m, e.params)], some err)

/-- `handleMessage(event)`: drop envelopes whose `jsonrpc` tag is not
`"2.0"`, then run the response branch and the notification branch. -/
def handleMessage (s : ChannelState) (e : Envelope) :
    ChannelState × List (String × Option Json) × Option String :=
  if e.jsonrpc ≠ "2.0" then (s, [], none)
  else
    let s1 := handleResponsePart s e
    handleNotificationPart s1 e

/-- The body of the `setTimeout` callback in `sendRequest`: if the id is
still pending when the timer fires, delete it and reject with the
timeout error. -/
def fireTimeout (s : ChannelState) (i : Nat) : ChannelState :=
  if i ∈ s.pendingRequests then
    { s with
        pendingRequests := s.pendingRequests.erase i
        settlements := s.settlements ++ [(i, .rejectedTimeout)] }
  else s

/-- Modelled from the spec: the `MCPApp` module in the source has no
teardown routine; spec §3 (Channel) and §4.2(c) say that destroying a
channel rejects every still-pending request with `ChannelClosed` and
drops the notification handlers. -/
def closeChannel (s : ChannelState) : ChannelState :=
  { s with
      pendingRequests := []
      handlers := []
      settlements :=
        s.settlements ++ s.pendingRequests.map (fun i => (i, .rejectedClosed)) }

/-- One externally triggered channel event: an outbound request, an
inbound envelope, or a timeout firing for an id. -/
inductive ChannelOp where
  | send (method : String) (params : Option Json)
  | recv (e : Envelope)
  | timeout (i : Nat)

/-- Run a sequence of channel events from a state, collecting the ids
allocated by the `send` events in order. -/
def runOps (s : ChannelState) : List ChannelOp → ChannelState × List Nat
  | [] => (s, [])
  | op :: rest =>
    match op with
    | .send m p =>
      let (s1, id, _) := sendRequest s m p
      let (s2, ids) := runOps s1 rest
      (s2, id :: ids)
    | .recv e =>
      let (s1, _, _) := handleMessage s e
      runOps s1 rest
    | .timeout i => runOps (fireTimeout s i) rest

/-! ## Flight booking data layer (`mcp-server/src/flights.ts`)

JS numbers are `ℚ` (exact; IEEE rounding not modelled), `Math.random()`
is an oracle `Nat → ℚ` consumed at an explicit index, and the
`Date.now()`-based id generators are explicit supplies. -/

/-- `Math.floor` on a rational. -/
def jsFloor (q : ℚ) : Int := ⌊q⌋

/-- `Math.round` (half away from zero upward, i.e. toward `+∞`). -/
def jsRound (q : ℚ) : Int := ⌊q + 1/2⌋

/-- `String(n).padStart(2, "0")` for the small nonnegative ints used in
time formatting. -/
def pad2 (n : Int) : String :=
  if 0 ≤ n ∧ n < 10 then "0" ++ toString n else toString n

/-- A stream of `Math.random()` results, consumed at increasing indices. -/
def Oracle : Type := Nat → ℚ

/-- The oracle conforms to `Math.random`'s contract. -/
def Oracle.InRange (o : Oracle) : Prop := ∀ k, 0 ≤ o k ∧ o k < 1

inductive CabinClass where
  | economy | business | first
deriving DecidableEq, Repr

structure Airport where
  code : String
  city : String
  name : String
  country : String
deriving DecidableEq, Repr

structure Airline where
  code : String
  name : String
  color : String
deriving DecidableEq, Repr

/-- The 15-entry mock airport database. -/
def AIRPORTS : List Airport :=
  [⟨"JFK", "New York", "John F. Kennedy International", "US"⟩,
   ⟨"LAX", "Los Angeles", "Los Angeles International", "US"⟩,
   ⟨"LHR", "London", "Heathrow", "UK"⟩,
   ⟨"CDG", "Paris", "Charles de Gaulle", "FR"⟩,
   ⟨"NRT", "Tokyo", "Narita International", "JP"⟩,
   ⟨"DXB", "Dubai", "Dubai International", "AE"⟩,
   ⟨"SIN", "Singapore", "Changi", "SG"⟩,
   ⟨"SFO", "San Francisco", "San Francisco International", "US"⟩,
   ⟨"ORD", "Chicago", "O'Hare International", "US"⟩,
   ⟨"MIA", "Miami", "Miami International", "US"⟩,
   ⟨"SEA", "Seattle", "Seattle-Tacoma International", "US"⟩,
   ⟨"BOS", "Boston", "Logan International", "US"⟩,
   ⟨"FRA", "Frankfurt", "Frankfurt am Main", "DE"⟩,
   ⟨"HKG", "Hong Kong", "Hong Kong International", "HK"⟩,
   ⟨"SYD", "Sydney", "Sydney Kingsford Smith", "AU"⟩]

/-- The 6-entry mock airline database. -/
def AIRLINES : List Airline :=
  [⟨"AA", "American Airlines", "#0078D2"⟩,
   ⟨"UA", "United Airlines", "#002244"⟩,
   ⟨"DL", "Delta Air Lines", "#003366"⟩,
   ⟨"BA", "British Airways", "#075AAA"⟩,
   ⟨"EK", "Emirates", "#D71921"⟩,
   ⟨"SQ", "Singapore Airlines", "#00246B"⟩]

def AIRCRAFT_TYPES : List String :=
  ["Boeing 737-800", "Boeing 777-300ER", "Boeing 787-9",
   "Airbus A320neo", "Airbus A350-900", "Airbus A380-800"]

/-- JS `toUpperCase()` for the ASCII airport codes. -/
def jsToUpper (s : String) : String :=
  String.mk (s.data.map (fun c =>
    if 'a' ≤ c ∧ c ≤ 'z' then Char.ofNat (c.toNat - 32) else c))

/-- `getAirportByCode`: case-insensitive lookup. -/
def getAirportByCode (code : String) : Option Airport :=
  AIRPORTS.find? (fun a => jsToUpper a.code = jsToUpper code)

/-- The rows of the simplified distance matrix in `calculateDuration`. -/
def distRow (o : String) : List (String × ℚ) :=
  if o = "JFK" then
    [("LAX", 11/2), ("LHR", 7), ("CDG", 15/2), ("NRT", 14), ("DXB", 12),
     ("SIN", 18), ("SFO", 6), ("ORD", 5/2), ("MIA", 3), ("SEA", 6),
     ("BOS", 3/2), ("FRA", 8), ("HKG", 16), ("SYD", 21)]
  else if o = "LAX" then
    [("JFK", 11/2), ("LHR", 10), ("CDG", 11), ("NRT", 11), ("DXB", 16),
     ("SIN", 17), ("SFO", 3/2), ("ORD", 4), ("MIA", 5), ("SEA", 5/2),
     ("BOS", 11/2), ("FRA", 11), ("HKG", 14), ("SYD", 15)]
  else if o = "LHR" then
    [("JFK", 7), ("LAX", 10), ("CDG", 1), ("NRT", 23/2), ("DXB", 7),
     ("SIN", 13), ("SFO", 21/2), ("ORD", 17/2), ("MIA", 9), ("SEA", 10),
     ("BOS", 7), ("FRA", 3/2), ("HKG", 12), ("SYD", 21)]
  else if o = "CDG" then
    [("JFK", 15/2), ("LAX", 11), ("LHR", 1), ("NRT", 12), ("DXB", 13/2),
     ("SIN", 25/2), ("SFO", 11), ("ORD", 9), ("MIA", 19/2), ("SEA", 21/2),
     ("BOS", 15/2), ("FRA", 1), ("HKG", 23/2), ("SYD", 43/2)]
  else if o = "SFO" then
    [("JFK", 6), ("LAX", 3/2), ("LHR", 21/2), ("CDG", 11), ("NRT", 10),
     ("DXB", 16), ("SIN", 16), ("ORD", 9/2), ("MIA", 11/2), ("SEA", 2),
     ("BOS", 11/2), ("FRA", 11), ("HKG", 13), ("SYD", 14)]
  else []

/-- `distances[origin]?.[destination]` -/
def distLookup (o d : String) : Option ℚ :=
  ((distRow o).find? (fun p => p.1 = d)).map (fun p => p.2)

/-- `distances[origin]?.[destination] || distances[destination]?.[origin] || 5`
(every entry is positive, so `||` is a plain defaulting chain here). -/
def flightHours (o d : String) : ℚ :=
  (distLookup o d).getD ((distLookup d o).getD 5)

/-- The `duration` string of `calculateDuration`. -/
def durationString (hours : ℚ) : String :=
  let h := jsFloor hours
  let m := jsRound ((hours - (h : ℚ)) * 60)
  if 0 < m then toString h ++ "h " ++ toString m ++ "m" else toString h ++ "h"

/-- `generateDepartureTimes(count)`: hours spread linearly from 6 to 22,
minutes a random multiple of 15.  Consumes one oracle draw per time;
returns the times and the next oracle index. -/
def generateDepartureTimes (o : Oracle) (n : Nat) (count : Nat) :
    List String × Nat :=
  let interval : ℚ := (22 - 6) / ((count : ℚ) - 1)
  let times := (List.range count).map (fun (i : Nat) =>
    let hour := jsFloor ((6 : ℚ) + (i : ℚ) * interval)
    let minute := jsFloor (o (n + i) * 4) * 15
    pad2 hour ++ ":" ++ pad2 minute)
  (times, n + count)

/-- `departure.split(":").map(Number)` for the `"HH:MM"` strings built by
`generateDepartureTimes`. -/
def parseClock (t : String) : Int × Int :=
  match (t.splitOn ":").map (fun u => ((u.toNat?).getD 0 : Int)) with
  | h :: m :: _ => (h, m)
  | [h] => (h, 0)
  | [] => (0, 0)

/-- `calculateArrivalTime(departure, durationHours)`. -/
def calculateArrivalTime (departure : String) (durationHours : ℚ) : String :=
  let (depHour, depMinute) := parseClock departure
  let totalMinutes : ℚ := (depHour : ℚ) * 60 + (depMinute : ℚ) + durationHours * 60
  let arrHour := jsFloor (totalMinutes / 60) % 24
  let arrMinute := jsFloor (totalMinutes - 60 * (jsFloor (totalMinutes / 60) : ℚ))
  pad2 arrHour ++ ":" ++ pad2 arrMinute

/-- `generatePrice(durationHours, cabinClass)`: base `50`/hour plus
`100`, a multiplicative variance of `0.8 + random * 0.4`, and a class
multiplier; consumes one draw. -/
def generatePrice (hours : ℚ) (cabinClass : CabinClass) (r : ℚ) : ℚ :=
  let basePrice := (hours * 50 + 100) * (4/5 + r * (2/5))
  let classMultiplier : ℚ :=
    match cabinClass with
    | .first => 4
    | .business => 5/2
    | .economy => 1
  (jsRound (basePrice * classMultiplier) : ℚ)

structure Flight where
  id : String
  airline : Airline
  flightNumber : String
  origin : Airport
  destination : Airport
  departureTime : String
  arrivalTime : String
  duration : String
  stops : Nat
  aircraft : String
  price : ℚ
  cabinClass : CabinClass
  seatsAvailable : Nat
deriving DecidableEq, Repr

structure FlightSearchParams where
  origin : String
  destination : String
  date : String
  passengers : Nat
  cabinClass : CabinClass
deriving DecidableEq, Repr

structure FlightSearch where
  id : String
  flights : List Flight
  searchParams : FlightSearchParams
  selectedFlightId : Option String
  selectedSeats : Option (List String)
deriving DecidableEq, Repr

structure Passenger where
  name : String
  email : String
  phone : String
deriving DecidableEq, Repr

structure Booking where
  confirmationNumber : String
  flight : Flight
  passengers : List Passenger
  seats : List String
  totalPrice : ℚ
  bookedAt : String
deriving DecidableEq, Repr

/-- `Map.get` on an association list. -/
def mapGet {α : Type} (l : List (String × α)) (k : String) : Option α :=
  (l.find? (fun p => p.1 = k)).map (fun p => p.2)

/-- `Map.set`: replace the value of an existing key, else append. -/
def mapSet {α : Type} : List (String × α) → String → α → List (String × α)
  | [], k, v => [(k, v)]
  | (k0, v0) :: t, k, v =>
    if k0 = k then (k, v) :: t else (k0, v0) :: mapSet t k v

/-- `Map.delete`. -/
def mapDelete {α : Type} (l : List (String × α)) (k : String) :
    List (String × α) :=
  l.filter (fun p => decide (p.1 ≠ k))

/-- The module-level mutable maps of `flights.ts`:
`flightSearches` and `bookings`. -/
structure FlightsState where
  flightSearches : List (String × FlightSearch)
  bookings : List (String × Booking)
deriving DecidableEq, Repr

/-- One generated flight option of `searchFlights` (the body of the
`departureTimes.map` callback), threading the oracle index; the flight
id comes from the explicit supply standing in for `generateFlightId()`
(whose `Date.now()` and internal `Math.random()` draw are subsumed by
the supply and not counted in the oracle indices). -/
def makeFlight (o : Oracle) (fidSupply : Nat → String)
    (originAirport destAirport : Airport) (hours : ℚ) (duration : String)
    (cabinClass : CabinClass) (depTime : String) (index : Nat) (n : Nat) :
    Flight × Nat :=
  let airline := (AIRLINES.getD (index % AIRLINES.length) ⟨"", "", ""⟩)
  let flightNum := airline.code ++ toString (100 + jsFloor (o n * 900))
  let price := generatePrice hours cabinClass (o (n + 1))
  let (stops, n2) : Nat × Nat :=
    if o (n + 2) < 7/10 then (0, n + 3)
    else if o (n + 3) < 7/10 then (1, n + 4) else (2, n + 4)
  let seatsAvailable := 10 + (jsFloor (o n2 * 50)).toNat
  let aircraft := AIRCRAFT_TYPES.getD (jsFloor (o (n2 + 1) * 6)).toNat ""
  let withStops : ℚ := hours + (stops : ℚ) * (3/2)
  ({ id := fidSupply index
     airline := airline
     flightNumber := flightNum
     origin := originAirport
     destination := destAirport
     departureTime := depTime
     arrivalTime := calculateArrivalTime depTime withStops
     duration :=
       if 0 < stops then
         toString (jsFloor withStops) ++ "h " ++
           toString (jsRound ((withStops - (jsFloor withStops : ℚ)) * 60)) ++ "m"
       else duration
     stops := stops
     aircraft := aircraft
     price := price
     cabinClass := cabinClass
     seatsAvailable := seatsAvailable },
   n2 + 2)

/-- Generate the flight list from the departure times, threading the
oracle index through each `makeFlight`. -/
def makeFlights (o : Oracle) (fidSupply : Nat → String)
    (originAirport destAirport : Airport) (hours : ℚ) (duration : String)
    (cabinClass : CabinClass) :
    List String → Nat → Nat → List Flight
  | [], _, _ => []
  | depTime :: rest, index, n =>
    let (f, n2) := makeFlight o fidSupply originAirport destAirport hours
      duration cabinClass depTime index n
    f :: makeFlights o fidSupply originAirport destAirport hours duration
      cabinClass rest (index + 1) n2

/-- `flights.sort((a, b) => a.departureTime.localeCompare(b.departureTime))`,
modelled as a stable insertion sort on the departure-time strings. -/
def insertByDep (f : Flight) : List Flight → List Flight
  | [] => [f]
  | g :: t =>
    if g.departureTime ≤ f.departureTime then g :: insertByDep f t
    else f :: g :: t

def sortByDep : List Flight → List Flight
  | [] => []
  | f :: t => insertByDep f (sortByDep t)

/-- `searchFlights(params)`: validate the airports (throwing on an
unknown code), generate 5–8 flight options, sort them, store the search
in `flightSearches` and return it.  `searchId` stands in for
`generateSearchId()` (its `Date.now()` and internal `Math.random()`
draw are subsumed by the parameter and not counted in the oracle
indices). -/
def searchFlights (st : FlightsState) (origin destination departureDate : String)
    (passengers : Nat) (cabinClass : CabinClass) (searchId : String)
    (fidSupply : Nat → String) (o : Oracle) : Except String (FlightsState × FlightSearch) :=
  match getAirportByCode origin, getAirportByCode destination with
  | none, _ => .error ("Invalid airport code: " ++ origin)
  | some _, none => .error ("Invalid airport code: " ++ destination)
  | some originAirport, some destAirport =>
    let hours := flightHours origin destination
    let duration := durationString hours
    let flightCount := (5 + jsFloor (o 0 * 4)).toNat
    let (departureTimes, n1) := generateDepartureTimes o 1 flightCount
    let flights := makeFlights o fidSupply originAirport destAirport hours
      duration cabinClass departureTimes 0 n1
    let search : FlightSearch :=
      { id := searchId
        flights := sortByDep flights
        searchParams :=
          { origin := origin, destination := destination, date := departureDate,
            passengers := passengers, cabinClass := cabinClass }
        selectedFlightId := none
        selectedSeats := none }
    .ok ({ st with flightSearches := mapSet st.flightSearches searchId search },
         search)

/-! ### Seat maps (`generateSeatMap`) -/

inductive SeatStatus where
  | available | occupied | selected | exit
deriving DecidableEq, Repr

structure Seat where
  id : String
  row : Nat
  position : String
  status : SeatStatus
  isWindow : Bool
  isAisle : Bool
  isExitRow : Bool
  price : ℚ
deriving DecidableEq, Repr

/-- JS `ToInt32`: reduce modulo `2^32` into `[-2^31, 2^31)`. -/
def toInt32 (n : Int) : Int :=
  let m := n % 4294967296
  if m < 2147483648 then m else m - 4294967296

/-- The seed hash of `generateSeatMap`:
`hash = ((hash << 5) - hash) + charCodeAt(i); hash = hash & hash`. -/
def hashInit (flightId : String) : Int :=
  flightId.data.foldl
    (fun h c => toInt32 (toInt32 (h * 32) - h + (c.toNat : Int))) 0

/-- One step of the seeded generator:
`hash = (hash * 1103515245 + 12345) & 0x7fffffff` (the low 31 bits; the
double rounding of the JS product is not modelled — exact integers). -/
def lcgNext (h : Int) : Int := (h * 1103515245 + 12345) % 2147483648

/-- `seededRandom()`: step the hash and return `hash / 0x7fffffff`. -/
def seededRandom (h : Int) : Int × ℚ :=
  let h2 := lcgNext h
  (h2, (h2 : ℚ) / 2147483647)

def seatPositions : List String := ["A", "B", "C", "D", "E", "F"]

/-- One seat of a row: a draw decides occupancy; exit rows, windows and
aisles carry the extra price from the source. -/
def makeSeat (row : Nat) (isExitRow : Bool) (occupancyRate : ℚ) (pos : String)
    (h : Int) : Int × Seat :=
  let isWindow := pos = "A" ∨ pos = "F"
  let isAisle := pos = "C" ∨ pos = "D"
  let (h2, r) := seededRandom h
  let isOccupied := r < occupancyRate
  let extraPrice : ℚ :=
    if isExitRow then 35 else if isWindow then 15 else if isAisle then 10 else 0
  (h2,
   { id := toString row ++ pos
     row := row
     position := pos
     status :=
       if isOccupied then .occupied else if isExitRow then .exit else .available
     isWindow := isWindow
     isAisle := isAisle
     isExitRow := isExitRow
     price := extraPrice })

/-- The inner loop over the six positions of a row. -/
def makeRowSeats (row : Nat) (isExitRow : Bool) (occupancyRate : ℚ) (h : Int) :
    List String → Int × List Seat
  | [] => (h, [])
  | pos :: rest =>
    let (h2, seat) := makeSeat row isExitRow occupancyRate pos h
    let (h3, seats) := makeRowSeats row isExitRow occupancyRate h2 rest
    (h3, seat :: seats)

/-- The outer loop over the row numbers. -/
def makeRows (occupancyRate : ℚ) (h : Int) : List Nat → Int × List (List Seat)
  | [] => (h, [])
  | row :: rest =>
    let isExitRow := row = 10 ∨ row = 11
    let (h2, rowSeats) := makeRowSeats row isExitRow occupancyRate h seatPositions
    let (h3, rows) := makeRows occupancyRate h2 rest
    (h3, rowSeats :: rows)

/-- `generateSeatMap(flightId)`: hash the flight id, draw the occupancy
rate (30–60%), then generate 20 rows of 6 seats.  A pure function of
`flightId` — the source reads no external state here. -/
def generateSeatMap (flightId : String) : List (List Seat) :=
  let h0 := hashInit flightId
  let (h1, r0) := seededRandom h0
  let occupancyRate : ℚ := 3/10 + r0 * (3/10)
  (makeRows occupancyRate h1 ((List.range 20).map (fun i => i + 1))).2

/-! ### Seat selection and booking -/

/-- JS truthiness of an optional string (`undefined` and `""` falsy). -/
def strTruthy : Option String → Bool
  | none => false
  | some s => ¬ s.isEmpty

/-- JS truthiness of an optional number (`undefined` and `0` falsy). -/
def natTruthy : Option Nat → Bool
  | none => false
  | some q => q ≠ 0

/-- Result record of `selectSeats`. -/
structure SelectSeatsResult where
  success : Bool
  message : String
  selectedSeats : Option (List String)
  totalSeatFee : Option ℚ
deriving DecidableEq, Repr

/-- The verification loop of `selectSeats`: find each requested seat in
the flattened map, failing on a missing or occupied seat, and total the
seat fees. -/
def sumSeatFeesChecked (flatSeats : List Seat) : List String → Except String ℚ
  | [] => .ok 0
  | seatId :: rest =>
    match flatSeats.find? (fun s => s.id = seatId) with
    | none => .error ("Seat " ++ seatId ++ " not found")
    | some seat =>
      if seat.status = .occupied then
        .error ("Seat " ++ seatId ++ " is already taken")
      else
        (sumSeatFeesChecked flatSeats rest).map (fun f => seat.price + f)

/-- `selectSeats(searchId, flightId, seatIds)`. -/
def selectSeats (st : FlightsState) (searchId flightId : String)
    (seatIds : List String) : FlightsState × SelectSeatsResult :=
  match mapGet st.flightSearches searchId with
  | none => (st, ⟨false, "Search session not found", none, none⟩)
  | some search =>
    if search.selectedFlightId ≠ some flightId then
      (st, ⟨false, "Flight not selected", none, none⟩)
    else
      let flatSeats := (generateSeatMap flightId).flatten
      match sumSeatFeesChecked flatSeats seatIds with
      | .error msg => (st, ⟨false, msg, none, none⟩)
      | .ok totalFee =>
        let search2 := { search with selectedSeats := some seatIds }
        ({ st with flightSearches := mapSet st.flightSearches searchId search2 },
         ⟨true,
          "Selected " ++ toString seatIds.length ++ " seat(s): " ++
            String.intercalate ", " seatIds,
          some seatIds, some totalFee⟩)

/-- Result record of `createBooking`. -/
structure BookingResult where
  success : Bool
  message : String
  booking : Option Booking
deriving DecidableEq, Repr

/-- The seat-fee total of `createBooking`: seats missing from the map
are silently skipped (`if (seat) seatFees += seat.price`). -/
def sumSeatFeesLenient (flatSeats : List Seat) : List String → ℚ
  | [] => 0
  | seatId :: rest =>
    match flatSeats.find? (fun s => s.id = seatId) with
    | none => sumSeatFeesLenient flatSeats rest
    | some seat => seat.price + sumSeatFeesLenient flatSeats rest

/-- `createBooking(searchId, passengers)`.  The random confirmation
number and the `bookedAt` timestamp are explicit parameters. -/
def createBooking (st : FlightsState) (searchId : String)
    (passengers : List Passenger) (confirmationNumber bookedAt : String) :
    FlightsState × BookingResult :=
  match mapGet st.flightSearches searchId with
  | none => (st, ⟨false, "Search session not found", none⟩)
  | some search =>
    if ¬ strTruthy search.selectedFlightId then
      (st, ⟨false, "No flight selected", none⟩)
    else
      let selectedFlightId := search.selectedFlightId.getD ""
      match search.selectedSeats with
      | none => (st, ⟨false, "No seats selected", none⟩)
      | some selectedSeats =>
        if selectedSeats.isEmpty then
          (st, ⟨false, "No seats selected", none⟩)
        else if passengers.length ≠ search.searchParams.passengers then
          (st, ⟨false,
            "Expected " ++ toString search.searchParams.passengers ++
              " passengers, got " ++ toString passengers.length, none⟩)
        else if passengers.length ≠ selectedSeats.length then
          (st, ⟨false,
            "Number of passengers (" ++ toString passengers.length ++
              ") doesn't match selected seats (" ++
              toString selectedSeats.length ++ ")", none⟩)
        else
          match search.flights.find? (fun f => f.id = selectedFlightId) with
          | none => (st, ⟨false, "Selected flight not found", none⟩)
          | some flight =>
            let flatSeats := (generateSeatMap flight.id).flatten
            let seatFees := sumSeatFeesLenient flatSeats selectedSeats
            let totalPrice := flight.price * (passengers.length : ℚ) + seatFees
            let booking : Booking :=
              { confirmationNumber := confirmationNumber
                flight := flight
                passengers := passengers
                seats := selectedSeats
                totalPrice := totalPrice
                bookedAt := bookedAt }
            ({ st with
                bookings := mapSet st.bookings confirmationNumber booking
                flightSearches := mapDelete st.flightSearches searchId },
             ⟨true,
              "Booking confirmed! Your confirmation number is " ++
                confirmationNumber,
              some booking⟩)

/-! ## Hotel booking data layer (`mcp-server/src/hotels.ts`)

Only the structures and `createHotelBooking` are embedded; the hotel
search generation is not needed by any claim. -/

structure Room where
  id : String
  name : String
  maxGuests : Nat
  pricePerNight : ℚ
  available : Nat
deriving DecidableEq, Repr

structure Hotel where
  id : String
  name : String
  stars : Nat
  rooms : List Room
deriving DecidableEq, Repr

structure HotelSearchParams where
  city : String
  checkIn : String
  checkOut : String
  guests : Nat
  rooms : Nat
  nights : Nat
deriving DecidableEq, Repr

structure HotelSearch where
  id : String
  hotels : List Hotel
  searchParams : HotelSearchParams
  selectedHotelId : Option String
  selectedRoomId : Option String
  selectedQuantity : Option Nat
deriving DecidableEq, Repr

structure Guest where
  name : String
  email : String
deriving DecidableEq, Repr

structure HotelBooking where
  confirmationNumber : String
  hotel : Hotel
  room : Room
  roomQuantity : Nat
  guests : List Guest
  checkIn : String
  checkOut : String
  nights : Nat
  totalPrice : ℚ
  specialRequests : Option String
  bookedAt : String
deriving DecidableEq, Repr

/-- The module-level mutable maps of `hotels.ts`:
`hotelSearches` and `hotelBookings`. -/
structure HotelsState where
  hotelSearches : List (String × HotelSearch)
  hotelBookings : List (String × HotelBooking)
deriving DecidableEq, Repr

/-- Result record of `createHotelBooking`. -/
structure HotelBookingResult where
  success : Bool
  message : String
  booking : Option HotelBooking
deriving DecidableEq, Repr

/-- `createHotelBooking(searchId, guests, specialRequests)`.  The random
confirmation number and `bookedAt` timestamp are explicit parameters.
The `!search.selectedHotelId || !search.selectedRoomId ||
!search.selectedQuantity` guard is JS truthiness. -/
def createHotelBooking (st : HotelsState) (searchId : String)
    (guests : List Guest) (specialRequests : Option String)
    (confirmationNumber bookedAt : String) :
    HotelsState × HotelBookingResult :=
  match mapGet st.hotelSearches searchId with
  | none => (st, ⟨false, "Search session not found", none⟩)
  | some search =>
    if ¬ (strTruthy search.selectedHotelId ∧ strTruthy search.selectedRoomId ∧
          natTruthy search.selectedQuantity) then
      (st, ⟨false, "No room selected", none⟩)
    else
      match search.hotels.find?
          (fun h => some h.id = search.selectedHotelId) with
      | none => (st, ⟨false, "Hotel not found", none⟩)
      | some hotel =>
        match hotel.rooms.find?
            (fun r => some r.id = search.selectedRoomId) with
        | none => (st, ⟨false, "Room not found", none⟩)
        | some room =>
          if guests.length = 0 then
            (st, ⟨false, "At least one guest is required", none⟩)
          else
            let quantity := search.selectedQuantity.getD 0
            let totalPrice :=
              room.pricePerNight * (search.searchParams.nights : ℚ) *
                (quantity : ℚ)
            let booking : HotelBooking :=
              { confirmationNumber := confirmationNumber
                hotel := hotel
                room := room
                roomQuantity := quantity
                guests := guests
                checkIn := search.searchParams.checkIn
                checkOut := search.searchParams.checkOut
                nights := search.searchParams.nights
                totalPrice := totalPrice
                specialRequests := specialRequests
                bookedAt := bookedAt }
            ({ st with
                hotelBookings :=
                  mapSet st.hotelBookings confirmationNumber booking
                hotelSearches := mapDelete st.hotelSearches searchId },
             ⟨true,
              "Booking confirmed! Your confirmation number is " ++
                confirmationNumber,
              some booking⟩)

/-! ## The MCP server tool layer (`mcp-server/server.ts`) -/

/-- A `CallToolResult` as built by the handlers in `server.ts`: a list
of text content items and the `structuredContent` payload, which is an
optional field of the SDK result type. -/
structure ToolResult (σ : Type) where
  content : List String
  structuredContent : Option σ
deriving DecidableEq, Repr

/-- The `structuredContent` payloads of the `search-flights` handler:
`{search, summary}` on success, `{success: false, error}` on a caught
exception. -/
inductive SearchFlightsStructured where
  | ok (search : FlightSearch) (flightCount : Nat)
      (origin destination date : String) (passengers : Nat)
  | err (success : Bool) (error : String)
deriving DecidableEq, Repr

/-- The `search-flights` tool handler: run `searchFlights` in a
`try`/`catch`, build the three-flight text summary on success, and
report the exception message on failure — both branches populate
`content` and `structuredContent`. -/
def callSearchFlights (st : FlightsState) (origin destination departureDate : String)
    (passengers : Nat) (cabinClass : Option CabinClass) (searchId : String)
    (fidSupply : Nat → String) (o : Oracle) :
    FlightsState × ToolResult SearchFlightsStructured :=
  match searchFlights st origin destination departureDate passengers
      (cabinClass.getD .economy) searchId fidSupply o with
  | .ok (st2, search) =>
    let flightSummary := String.intercalate ", "
      ((search.flights.take 3).map (fun f =>
        f.airline.code ++ f.flightNumber.drop 2 ++ " " ++ f.departureTime ++
          "-" ++ f.arrivalTime ++ " $" ++ toString f.price))
    (st2,
     { content :=
         ["Found " ++ toString search.flights.length ++ " flights from " ++
            origin ++ " to " ++ destination ++ " on " ++ departureDate ++
            ":\n\n" ++ flightSummary ++ "..."]
       structuredContent :=
         some (.ok search search.flights.length origin destination
           departureDate passengers) })
  | .error msg =>
    (st,
     { content := ["Error: " ++ msg]
       structuredContent := some (.err false msg) })

/-- The `structuredContent` payload of the `select-seats` handler:
`{success, selectedSeats, totalSeatFee, error: success ? undefined :
message}`. -/
structure SelectSeatsStructured where
  success : Bool
  selectedSeats : Option (List String)
  totalSeatFee : Option ℚ
  error : Option String
deriving DecidableEq, Repr

/-- The `select-seats` tool handler: a single return site that always
populates `content` and `structuredContent`. -/
def callSelectSeats (st : FlightsState) (searchId flightId : String)
    (seats : List String) : FlightsState × ToolResult SelectSeatsStructured :=
  let (st2, r) := selectSeats st searchId flightId seats
  (st2,
   { content := [r.message]
     structuredContent :=
       some ⟨r.success, r.selectedSeats, r.totalSeatFee,
         if r.success then none else some r.message⟩ })

/-- The 16 tools registered by `getServer()` with their
`_meta["ui/resourceUri"]` back-references (the four main tools point at
their app resources; the helpers carry none). -/
def serverTools : List Tool :=
  [⟨"search-flights", some "ui://flights/flights-app.html"⟩,
   ⟨"select-flight", none⟩,
   ⟨"select-seats", none⟩,
   ⟨"book-flight", none⟩,
   ⟨"search-hotels", some "ui://hotels/hotels-app.html"⟩,
   ⟨"select-hotel", none⟩,
   ⟨"select-room", none⟩,
   ⟨"book-hotel", none⟩,
   ⟨"create-portfolio", some "ui://trading/trading-app.html"⟩,
   ⟨"execute-trade", none⟩,
   ⟨"refresh-prices", none⟩,
   ⟨"create-board", some "ui://kanban/kanban-app.html"⟩,
   ⟨"move-card", none⟩,
   ⟨"add-card", none⟩,
   ⟨"update-card", none⟩,
   ⟨"delete-card", none⟩]

/-! # Theorems -/

/-! ## C1 — access filter visibility

The claim's third part fails on the code: the JS pattern
`/ui:\/\/([^/]+)/` is not anchored and does not require a `/` after the
namespace, so an id such as `"ui://flights"` fails the spec's
`ui://<namespace>/...` shape yet the tool is visible once `flights` is
connected. -/

/-- C1 (counterexample): the uiResourceId `"ui://flights"` (no `/` and
no path after the namespace) and the uiResourceId
`"Xui://hotels/app.html"` (junk before the scheme, so the id as a whole
is not of the form `ui://<namespace>/...`) both fail the
`ui://<namespace>/...` pattern, so per the claim neither tool should
ever be visible; but `filterTools` keeps each one as soon as its
captured namespace is connected. -/
theorem c1_filter_counterexample :
    (specUiPattern "ui://flights" = none ∧
      filterTools [⟨"search-flights", some "ui://flights"⟩] ["flights"] =
        [⟨"search-flights", some "ui://flights"⟩]) ∧
    (specUiPattern "Xui://hotels/app.html" = none ∧
      filterTools [⟨"search-hotels", some "Xui://hotels/app.html"⟩] ["hotels"] =
        [⟨"search-hotels", some "Xui://hotels/app.html"⟩]) := by
  decide

/-- C1 (amended): a tool with no `uiResourceId` is visible under every
context; a tool with a `uiResourceId` is visible iff the first
occurrence of `ui://` in the id is followed by a nonempty run of
non-`/` characters (no trailing `/` required, prefix junk allowed) that
is a member of the connected namespaces; an id with no such occurrence
is never visible (fails closed). -/
theorem c1_filterTools_amended (tools : List Tool) (ctx : List String) (t : Tool) :
    t ∈ filterTools tools ctx ↔
      t ∈ tools ∧
        ∀ uri, t.uiResourceId = some uri →
          ∃ ns, extractNamespace uri = some ns ∧ ns ∈ ctx := by
  unfold filterTools
  rw [List.mem_filter]
  refine and_congr_right fun _ => ?_
  cases huri : t.uiResourceId with
  | none => simp [huri]
  | some uri =>
    cases hns : extractNamespace uri with
    | none => simp [huri, hns]
    | some ns =>
      simp only [huri, hns]
      constructor
      · intro h
        rcases List.contains_iff_exists_mem_beq.mp h with ⟨a, ha, hb⟩
        intro u hu
        cases hu
        refine ⟨ns, hns, ?_⟩
        have hna : ns = a := by simpa using hb
        simpa [hna] using ha
      · intro h
        rcases h uri rfl with ⟨ns2, hns2, hmem⟩
        have hnn : ns = ns2 := by
          have := hns.symm.trans hns2
          simpa using this
        exact List.contains_iff_exists_mem_beq.mpr ⟨ns, hnn ▸ hmem, by simp⟩

/-- C1 (witness): the real `search-flights` registration is visible
under the context that has `flights` connected. -/
theorem c1_filterTools_amended_witness :
    (⟨"search-flights", some "ui://flights/flights-app.html"⟩ : Tool) ∈
      filterTools serverTools ["flights"] :=
  (c1_filterTools_amended serverTools ["flights"] _).mpr
    ⟨by decide, fun uri h => by
      cases h
      exact ⟨"flights", by decide, by decide⟩⟩

/-! ## C2 — responses are matched by id, not arrival order -/

/-- A response envelope as posted back by the host. -/
def responseEnv (i : Nat) (result error : Option Json) : Envelope :=
  { jsonrpc := "2.0", id := some i, method := none, params := none,
    result := result, error := error }

/-- Delivering a response whose id is pending settles exactly that
continuation and removes the id. -/
theorem handleMessage_matched (s : ChannelState) (e : Envelope) (i : Nat)
    (hj : e.jsonrpc = "2.0") (hid : e.id = some i)
    (hmem : i ∈ s.pendingRequests) :
    (handleMessage s e).1.settlements = s.settlements ++ [(i, settleOf e)] ∧
    (handleMessage s e).1.pendingRequests = s.pendingRequests.erase i := by
  unfold handleMessage handleResponsePart handleNotificationPart
  simp [hj, hid, hmem]

/-- C2: issue request A then request B on one channel; deliver B's
response first and then A's.  Each continuation is settled with its own
result — the settlement log gains `(B, resolved rB)` then
`(A, resolved rA)` — regardless of the reversed arrival order. -/
theorem c2_out_of_order_delivery (s : ChannelState) (mA mB : String)
    (pA pB rA rB : Option Json) :
    (sendRequest s mA pA).2.1 ≠ (sendRequest (sendRequest s mA pA).1 mB pB).2.1 ∧
    (handleMessage
        (handleMessage (sendRequest (sendRequest s mA pA).1 mB pB).1
          (responseEnv (sendRequest (sendRequest s mA pA).1 mB pB).2.1 rB none)).1
        (responseEnv (sendRequest s mA pA).2.1 rA none)).1.settlements =
      s.settlements ++
        [((sendRequest (sendRequest s mA pA).1 mB pB).2.1, .resolved rB),
         ((sendRequest s mA pA).2.1, .resolved rA)] := by
  constructor
  · simp [sendRequest]
  · unfold sendRequest handleMessage handleResponsePart handleNotificationPart
      responseEnv settleOf
    simp [List.erase_cons_head]

/-- C2 (witness): the scenario at the fresh channel with concrete
payloads — ids 1 and 2, B answered first. -/
theorem c2_out_of_order_witness :
    (sendRequest initChannel "a" none).2.1 ≠
      (sendRequest (sendRequest initChannel "a" none).1 "b" none).2.1 ∧
    (handleMessage
        (handleMessage (sendRequest (sendRequest initChannel "a" none).1 "b"
            none).1
          (responseEnv (sendRequest (sendRequest initChannel "a" none).1 "b"
            none).2.1 (some (.str "rb")) none)).1
        (responseEnv (sendRequest initChannel "a" none).2.1
          (some (.str "ra")) none)).1.settlements =
      initChannel.settlements ++
        [((sendRequest (sendRequest initChannel "a" none).1 "b" none).2.1,
            .resolved (some (.str "rb"))),
         ((sendRequest initChannel "a" none).2.1,
            .resolved (some (.str "ra")))] :=
  c2_out_of_order_delivery initChannel "a" "b" none none
    (some (.str "ra")) (some (.str "rb"))

/-! ## C3 — timeout rejects, removes the id, and late responses are
ignored -/

/-- C3: if `timeoutMs` elapses while `i` is still pending, the timer
callback rejects that continuation with the timeout error and deletes
the entry; any later envelope carrying id `i` then leaves the channel
completely unchanged (no settlement, no handler invocation, no
exception). -/
theorem c3_timeout_rejects_and_removes (s : ChannelState) (i : Nat)
    (hmem : i ∈ s.pendingRequests) (hnd : s.pendingRequests.Nodup) :
    (fireTimeout s i).settlements = s.settlements ++ [(i, .rejectedTimeout)] ∧
    i ∉ (fireTimeout s i).pendingRequests ∧
    ∀ e : Envelope, e.id = some i →
      handleMessage (fireTimeout s i) e = ((fireTimeout s i), [], none) := by
  refine ⟨?_, ?_, ?_⟩
  · unfold fireTimeout
    simp [hmem]
  · unfold fireTimeout
    simp only [hmem, if_pos]
    exact hnd.not_mem_erase
  · intro e hid
    have hnot : i ∉ (fireTimeout s i).pendingRequests := by
      unfold fireTimeout
      simp only [hmem, if_pos]
      exact hnd.not_mem_erase
    unfold handleMessage handleResponsePart handleNotificationPart
    by_cases hj : e.jsonrpc = "2.0" <;> simp [hj, hid, hnot]

/-- C3 (witness): one request issued from the fresh channel, its
timeout fires, and the late response for id 1 is ignored. -/
theorem c3_timeout_witness :
    (fireTimeout (sendRequest initChannel "tools/call" none).1 1).settlements =
      (sendRequest initChannel "tools/call" none).1.settlements ++
        [(1, .rejectedTimeout)] ∧
    1 ∉ (fireTimeout (sendRequest initChannel "tools/call" none).1 1).pendingRequests ∧
    handleMessage (fireTimeout (sendRequest initChannel "tools/call" none).1 1)
        (responseEnv 1 (some (.str "late")) none) =
      ((fireTimeout (sendRequest initChannel "tools/call" none).1 1), [], none) :=
  have h := c3_timeout_rejects_and_removes
    (sendRequest initChannel "tools/call" none).1 1
    (by simp [sendRequest, initChannel]) (by simp [sendRequest, initChannel])
  ⟨h.1, h.2.1, h.2.2 (responseEnv 1 (some (.str "late")) none) rfl⟩

/-! ## C4 — teardown rejects every pending request exactly once

The `MCPApp` module in the source has no teardown routine, so
`closeChannel` above is modelled from the spec (§3 Channel, §4.2(c)):
it rejects each pending continuation with `ChannelClosed` and drops the
handlers. -/

/-- C4: closing a channel with `k` pending requests appends exactly the
`k` rejections `(i, ChannelClosed)`, one per pending id (each exactly
once when the pending ids are distinct, as they are on every reachable
state); afterwards nothing is pending, and any further envelope —
response or notification — leaves the closed channel untouched: no
settlement ever fires after teardown. -/
theorem c4_close_rejects_all_pending (s : ChannelState)
    (hnd : s.pendingRequests.Nodup) :
    (closeChannel s).settlements =
      s.settlements ++
        s.pendingRequests.map (fun i => (i, Settlement.rejectedClosed)) ∧
    (s.pendingRequests.map (fun i => (i, Settlement.rejectedClosed))).length =
      s.pendingRequests.length ∧
    (s.pendingRequests.map (fun i => (i, Settlement.rejectedClosed))).Nodup ∧
    (∀ i, (i, Settlement.rejectedClosed) ∈
        s.pendingRequests.map (fun i => (i, Settlement.rejectedClosed)) ↔
      i ∈ s.pendingRequests) ∧
    (closeChannel s).pendingRequests = [] ∧
    ∀ e, handleMessage (closeChannel s) e = (closeChannel s, [], none) := by
  have hinj : Function.Injective
      (fun i : Nat => (i, Settlement.rejectedClosed)) := by
    intro a b hab
    simpa using congrArg Prod.fst hab
  refine ⟨rfl, s.pendingRequests.length_map _, hnd.map hinj, ?_, rfl, ?_⟩
  · intro i
    constructor
    · intro hi
      rcases List.mem_map.mp hi with ⟨j, hj, hji⟩
      have : j = i := by simpa using congrArg Prod.fst hji
      exact this ▸ hj
    · intro hi
      exact List.mem_map.mpr ⟨i, hi, rfl⟩
  · intro e
    unfold handleMessage handleResponsePart handleNotificationPart closeChannel
      lookupHandler
    by_cases hj : e.jsonrpc = "2.0" <;>
      cases hid : e.id <;> cases hm : e.method <;> simp [hj, hid, hm]

/-- C4 (witness): closing a channel with two pending requests appends
two `ChannelClosed` rejections, one per id. -/
theorem c4_close_witness :
    (closeChannel
        (sendRequest (sendRequest initChannel "a" none).1 "b" none).1).settlements =
      (sendRequest (sendRequest initChannel "a" none).1 "b" none).1.settlements ++
        ((sendRequest (sendRequest initChannel "a" none).1 "b"
            none).1.pendingRequests.map
          (fun i => (i, Settlement.rejectedClosed))) ∧
    (closeChannel
        (sendRequest (sendRequest initChannel "a" none).1 "b" none).1).pendingRequests
      = [] :=
  have h := c4_close_rejects_all_pending
    (sendRequest (sendRequest initChannel "a" none).1 "b" none).1
    (by simp [sendRequest, initChannel])
  ⟨h.1, h.2.2.2.2.1⟩

/-! ## C5 — notification dispatch

The claim's single-most-recent-handler part matches the code
(`notificationHandlers.set` replaces, `dispatch` invokes one handler),
but the exception part does not: `handleMessage` has no try/catch
around `handler(data.params)`, so a thrown exception escapes the
dispatch uncaught instead of being swallowed into a logged failure. -/

/-- C5 (counterexample): a handler that throws makes the dispatch
itself propagate the exception (the uncaught-exception slot of
`handleMessage` is populated) — the channel code does not swallow it. -/
theorem c5_dispatch_counterexample :
    (handleMessage
        (onNotification initChannel "m" (fun _ => Except.error "boom"))
        { jsonrpc := "2.0", id := none, method := some "m", params := none,
          result := none, error := none }).2.2 = some "boom" := rfl

/-- `Map.set` then `Map.get` on the handler table returns the handler
just stored. -/
theorem lookup_setAssoc_self (l : List (String × Handler)) (m : String)
    (h : Handler) : lookupHandler (setAssoc l m h) m = some h := by
  induction l with
  | nil => simp [setAssoc, lookupHandler]
  | cons p t ih =>
    by_cases hk : p.1 = m
    · simp [setAssoc, lookupHandler, hk]
    · simpa [setAssoc, lookupHandler, hk, List.find?] using ih

/-- C5 (amended): for a notification envelope (nonempty method name, as
required by the JS truthiness guard), at most one handler runs —
exactly the handler registered for the method, which is the most
recently registered one since `onNotification` replaces any prior
handler — and it receives the envelope's `params`; the channel state
(handler table included) is unchanged by the dispatch, but an exception
thrown by the handler propagates out of `handleMessage` uncaught rather
than being swallowed into a logged failure. -/
theorem c5_dispatch_amended (s : ChannelState) (e : Envelope) (m : String)
    (hj : e.jsonrpc = "2.0") (hid : e.id = none) (hm : e.method = some m)
    (hm0 : m ≠ "") :
    (handleMessage s e).1 = s ∧
    (handleMessage s e).2.1 =
      (match lookupHandler s.handlers m with
       | some _ => [(m, e.params)]
       | none => []) ∧
    (handleMessage s e).2.1.length ≤ 1 ∧
    (handleMessage s e).2.2 =
      (match lookupHandler s.handlers m with
       | some h =>
         (match h e.params with
          | .ok _ => none
          | .error err => some err)
       | none => none) ∧
    ∀ h1 h2 : Handler,
      lookupHandler (onNotification (onNotification s m h1) m h2).handlers m =
        some h2 := by
  have hcore :
      handleMessage s e =
        (s,
         match lookupHandler s.handlers m with
         | some h =>
           (match h e.params with
            | .ok _ => ([(m, e.params)], none)
            | .error err => ([(m, e.params)], some err))
         | none => ([], none)) := by
    unfold handleMessage handleResponsePart handleNotificationPart
    simp only [hj, hid, hm]
    rw [if_neg hm0]
    cases hl : lookupHandler s.handlers m with
    | none => simp [hl]
    | some h => cases hr : h e.params <;> simp [hl, hr]
  refine ⟨?_, ?_, ?_, ?_, ?_⟩
  · rw [hcore]
  · rw [hcore]
    cases hl : lookupHandler s.handlers m with
    | none => simp
    | some h => cases hr : h e.params <;> simp [hr]
  · rw [hcore]
    cases hl : lookupHandler s.handlers m with
    | none => simp
    | some h => cases hr : h e.params <;> simp [hr]
  · rw [hcore]
    cases hl : lookupHandler s.handlers m with
    | none => simp
    | some h => cases hr : h e.params <;> simp [hr]
  · intro h1 h2
    exact lookup_setAssoc_self _ m h2

/-- C5 (witness): dispatching `ui/ready` on a channel whose only
registered handler for it is the second of two registrations invokes
exactly that handler once with the params, leaves the state unchanged,
and reports no exception for a non-throwing handler. -/
theorem c5_dispatch_amended_witness :
    (handleMessage (onNotification initChannel "ui/ready" (fun _ => Except.ok ()))
        { jsonrpc := "2.0", id := none, method := some "ui/ready",
          params := some (.str "p"), result := none, error := none }).2.1 =
      [("ui/ready", some (.str "p"))] ∧
    (handleMessage (onNotification initChannel "ui/ready" (fun _ => Except.ok ()))
        { jsonrpc := "2.0", id := none, method := some "ui/ready",
          params := some (.str "p"), result := none, error := none }).2.2 = none :=
  have h := c5_dispatch_amended
    (onNotification initChannel "ui/ready" (fun _ => Except.ok ()))
    { jsonrpc := "2.0", id := none, method := some "ui/ready",
      params := some (.str "p"), result := none, error := none }
    "ui/ready" rfl rfl rfl (by decide)
  ⟨h.2.1, h.2.2.2.1⟩

/-! ## C6 — request ids are a strictly increasing sequence -/

/-- The notification branch never changes the state. -/
theorem handleNotificationPart_state (s : ChannelState) (e : Envelope) :
    (handleNotificationPart s e).1 = s := by
  unfold handleNotificationPart
  repeat' split
  all_goals rfl

/-- The response branch never touches the id counter. -/
theorem handleResponsePart_requestId (s : ChannelState) (e : Envelope) :
    (handleResponsePart s e).requestId = s.requestId := by
  unfold handleResponsePart
  repeat' split
  all_goals rfl

/-- `handleMessage` never touches the id counter. -/
theorem handleMessage_requestId (s : ChannelState) (e : Envelope) :
    (handleMessage s e).1.requestId = s.requestId := by
  unfold handleMessage
  split
  · rfl
  · rw [handleNotificationPart_state, handleResponsePart_requestId]

/-- The timeout callback never touches the id counter. -/
theorem fireTimeout_requestId (s : ChannelState) (i : Nat) :
    (fireTimeout s i).requestId = s.requestId := by
  unfold fireTimeout
  split <;> rfl

/-- Unfolding `runOps` over a `send`. -/
theorem runOps_send (s : ChannelState) (m : String) (p : Option Json)
    (rest : List ChannelOp) :
    runOps s (.send m p :: rest) =
      ((runOps (sendRequest s m p).1 rest).1,
        (sendRequest s m p).2.1 :: (runOps (sendRequest s m p).1 rest).2) := rfl

/-- Unfolding `runOps` over a `recv`. -/
theorem runOps_recv (s : ChannelState) (e : Envelope) (rest : List ChannelOp) :
    runOps s (.recv e :: rest) = runOps (handleMessage s e).1 rest := rfl

/-- Unfolding `runOps` over a `timeout`. -/
theorem runOps_timeout (s : ChannelState) (i : Nat) (rest : List ChannelOp) :
    runOps s (.timeout i :: rest) = runOps (fireTimeout s i) rest := rfl

/-- Every id allocated during a run is at least the starting counter
value, and the allocated ids increase strictly. -/
theorem runOps_ids_mono (ops : List ChannelOp) :
    ∀ s : ChannelState,
      (∀ j ∈ (runOps s ops).2, s.requestId ≤ j) ∧
      List.Chain' (· < ·) (runOps s ops).2 := by
  induction ops with
  | nil => intro s; simp [runOps]
  | cons op rest ih =>
    intro s
    cases op with
    | send m p =>
      rcases ih (sendRequest s m p).1 with ⟨hge, hch⟩
      have hgt : ∀ j ∈ (runOps (sendRequest s m p).1 rest).2, s.requestId < j := by
        intro j hj
        have h1 := hge j hj
        have h2 : (sendRequest s m p).1.requestId = s.requestId + 1 := rfl
        omega
      constructor
      · intro j hj
        rw [runOps_send] at hj
        rcases List.mem_cons.mp hj with hj | hj
        · have h2 : (sendRequest s m p).2.1 = s.requestId := rfl
          omega
        · exact le_of_lt (hgt j hj)
      · rw [runOps_send]
        refine List.chain'_cons'.mpr ⟨?_, hch⟩
        intro y hy
        have hmem : y ∈ (runOps (sendRequest s m p).1 rest).2 :=
          List.mem_of_mem_head? hy
        have h1 := hgt y hmem
        have h2 : (sendRequest s m p).2.1 = s.requestId := rfl
        omega
    | recv e =>
      rcases ih (handleMessage s e).1 with ⟨hge, hch⟩
      rw [runOps_recv]
      refine ⟨?_, hch⟩
      intro j hj
      have h1 := hge j hj
      have h2 := handleMessage_requestId s e
      omega
    | timeout i =>
      rcases ih (fireTimeout s i) with ⟨hge, hch⟩
      rw [runOps_timeout]
      refine ⟨?_, hch⟩
      intro j hj
      have h1 := hge j hj
      have h2 := fireTimeout_requestId s i
      omega

/-- C6: over any sequence of channel events starting from `init()`, the
ids handed out by `sendRequest` form a strictly increasing sequence —
the monotone `requestId++` counter — so no id is ever assigned to two
different requests on the channel. -/
theorem c6_request_ids_strictly_increasing (ops : List ChannelOp) :
    List.Chain' (· < ·) (runOps initChannel ops).2 ∧
    (runOps initChannel ops).2.Nodup := by
  have hch := (runOps_ids_mono ops initChannel).2
  refine ⟨hch, ?_⟩
  have hp : List.Pairwise (· < ·) (runOps initChannel ops).2 :=
    List.chain'_iff_pairwise.mp hch
  exact hp.imp Nat.ne_of_lt

/-- C6 (witness): two sends from the fresh channel allocate the
strictly increasing, duplicate-free ids 1 and 2. -/
theorem c6_request_ids_witness :
    List.Chain' (· < ·)
      (runOps initChannel [.send "a" none, .send "b" none]).2 ∧
    (runOps initChannel [.send "a" none, .send "b" none]).2.Nodup :=
  c6_request_ids_strictly_increasing [.send "a" none, .send "b" none]

/-! ## C7 — result envelopes always carry content and structuredContent -/

/-- C7: on every input — handler success or handler failure — the
result envelopes built by the `search-flights` and `select-seats`
handlers populate the optional `structuredContent` field (and the
`content` list is also never empty), so a consuming UI never has to
branch on field absence. -/
theorem c7_structured_content_always_present (st st2 : FlightsState)
    (origin destination date searchId searchId2 flightId : String)
    (passengers : Nat) (cabinClass : Option CabinClass)
    (seats : List String) (fidSupply : Nat → String) (o : Oracle) :
    ((callSearchFlights st origin destination date passengers cabinClass
        searchId fidSupply o).2.structuredContent.isSome = true ∧
      (callSearchFlights st origin destination date passengers cabinClass
        searchId fidSupply o).2.content ≠ []) ∧
    ((callSelectSeats st2 searchId2 flightId seats).2.structuredContent.isSome
        = true ∧
      (callSelectSeats st2 searchId2 flightId seats).2.content ≠ []) := by
  constructor
  · unfold callSearchFlights
    cases hres : searchFlights st origin destination date passengers
        (cabinClass.getD .economy) searchId fidSupply o with
    | ok v => simp
    | error msg => simp
  · unfold callSelectSeats
    simp

/-- C7 (witness): both handlers at concrete inputs. -/
theorem c7_structured_content_witness :
    ((callSearchFlights ⟨[], []⟩ "JFK" "LAX" "2026-01-20" 1 none "s1"
        (fun _ => "f1") (fun _ => 0)).2.structuredContent.isSome = true ∧
      (callSearchFlights ⟨[], []⟩ "JFK" "LAX" "2026-01-20" 1 none "s1"
        (fun _ => "f1") (fun _ => 0)).2.content ≠ []) ∧
    ((callSelectSeats ⟨[], []⟩ "s2" "f1" []).2.structuredContent.isSome
        = true ∧
      (callSelectSeats ⟨[], []⟩ "s2" "f1" []).2.content ≠ []) :=
  c7_structured_content_always_present ⟨[], []⟩ ⟨[], []⟩ "JFK" "LAX"
    "2026-01-20" "s1" "s2" "f1" 1 none [] (fun _ => "f1") (fun _ => 0)

/-! ## C8 — the JFK→LAX search scenario -/

/-- C8: under any context with the `flights` namespace connected the
`search-flights` tool is visible, and invoking its handler with
`origin = "JFK"`, `destination = "LAX"` succeeds (both airport codes
are in the database, so no exception is thrown): the result envelope
carries non-empty `content` and the success-shaped structured payload. -/
theorem c8_search_flights_jfk_lax (st : FlightsState) (date searchId : String)
    (passengers : Nat) (cabinClass : Option CabinClass)
    (fidSupply : Nat → String) (o : Oracle) (ctx : List String)
    (hctx : "flights" ∈ ctx) :
    (⟨"search-flights", some "ui://flights/flights-app.html"⟩ : Tool) ∈
      filterTools serverTools ctx ∧
    (callSearchFlights st "JFK" "LAX" date passengers cabinClass searchId
      fidSupply o).2.content ≠ [] ∧
    ∃ search flightCount,
      (callSearchFlights st "JFK" "LAX" date passengers cabinClass searchId
          fidSupply o).2.structuredContent =
        some (.ok search flightCount "JFK" "LAX" date passengers) := by
  have hJFK : getAirportByCode "JFK" =
      some ⟨"JFK", "New York", "John F. Kennedy International", "US"⟩ := by
    decide
  have hLAX : getAirportByCode "LAX" =
      some ⟨"LAX", "Los Angeles", "Los Angeles International", "US"⟩ := by
    decide
  refine ⟨?_, ?_⟩
  · refine List.mem_filter.mpr ⟨by decide, ?_⟩
    simp only [extractNamespace]
    have hns : matchUiNamespace "ui://flights/flights-app.html".data =
        some "flights".data := by decide
    simp [hns, List.contains_iff_exists_mem_beq]
    exact hctx
  · unfold callSearchFlights searchFlights
    rw [hJFK, hLAX]
    exact ⟨by simp, _, _, rfl⟩

/-- C8 (witness): the scenario at a concrete context, state, date and
oracle. -/
theorem c8_search_flights_witness :
    (⟨"search-flights", some "ui://flights/flights-app.html"⟩ : Tool) ∈
      filterTools serverTools ["flights"] ∧
    (callSearchFlights ⟨[], []⟩ "JFK" "LAX" "2026-01-20" 2 none "s1"
      (fun _ => "f1") (fun _ => 0) ).2.content ≠ [] :=
  have h := c8_search_flights_jfk_lax ⟨[], []⟩ "2026-01-20" "s1" 2 none
    (fun _ => "f1") (fun _ => 0) ["flights"] (by decide)
  ⟨h.1, h.2.1⟩

/-! ## C9 — `generateSeatMap` is deterministic in its argument

The source seeds a local LCG from a hash of `flightId` and reads no
other state, so the embedding is a pure function: determinism is
definitional, and both `selectSeats` and `createBooking` consult the
same map for the same flight. -/

/-- Each generated row has one seat per position. -/
theorem makeRowSeats_length (row : Nat) (ex : Bool) (occ : ℚ) :
    ∀ (ps : List String) (h : Int),
      (makeRowSeats row ex occ h ps).2.length = ps.length := by
  intro ps
  induction ps with
  | nil => intro h; rfl
  | cons pos rest ih =>
    intro h
    simp only [makeRowSeats]
    simpa using ih (makeSeat row ex occ pos h).1

/-- The row loop yields one row per row number, each of six seats. -/
theorem makeRows_shape (occ : ℚ) :
    ∀ (rs : List Nat) (h : Int),
      (makeRows occ h rs).2.length = rs.length ∧
      ∀ row ∈ (makeRows occ h rs).2, row.length = 6 := by
  intro rs
  induction rs with
  | nil => intro h; exact ⟨rfl, by simp [makeRows]⟩
  | cons r rest ih =>
    intro h
    rcases ih (makeRowSeats r (r = 10 ∨ r = 11) occ h seatPositions).1 with
      ⟨hlen, hrows⟩
    constructor
    · simpa [makeRows] using hlen
    · intro row hrow
      simp only [makeRows] at hrow
      rcases List.mem_cons.mp hrow with hrow | hrow
      · rw [hrow]
        exact makeRowSeats_length r _ occ seatPositions h
      · exact hrows row hrow

/-- If the checking fee total of `selectSeats` succeeds, the lenient
fee total of `createBooking` over the same flat seat list and the same
seat ids computes the same fee. -/
theorem sumSeatFees_agree (flat : List Seat) :
    ∀ (seats : List String) (fee : ℚ),
      sumSeatFeesChecked flat seats = .ok fee →
      sumSeatFeesLenient flat seats = fee := by
  intro seats
  induction seats with
  | nil =>
    intro fee h
    simp only [sumSeatFeesChecked, Except.ok.injEq] at h
    simpa [sumSeatFeesLenient] using h
  | cons sid rest ih =>
    intro fee h
    unfold sumSeatFeesChecked at h
    unfold sumSeatFeesLenient
    cases hf : flat.find? (fun s => s.id = sid) with
    | none =>
      simp only [hf] at h
      exact Except.noConfusion h
    | some seat =>
      simp only [hf] at h ⊢
      by_cases hocc : seat.status = .occupied
      · rw [if_pos hocc] at h
        exact Except.noConfusion h
      · rw [if_neg hocc] at h
        cases hr : sumSeatFeesChecked flat rest with
        | error e =>
          rw [hr] at h
          exact Except.noConfusion h
        | ok g =>
          rw [hr] at h
          simp only [Except.map, Except.ok.injEq] at h
          rw [ih g hr]
          exact h

/-- C9: the seat map is a pure function of the flight id — two
evaluations agree — it always has 20 rows of 6 seats, and whenever
`selectSeats` accepts a list of seats with total fee `fee`, the
fee total that `createBooking` recomputes from the same flight's map is
the same `fee`: both sides see one seat availability and price table. -/
theorem c9_generateSeatMap_deterministic (fid : String) (seats : List String)
    (fee : ℚ)
    (h : sumSeatFeesChecked (generateSeatMap fid).flatten seats = .ok fee) :
    generateSeatMap fid = generateSeatMap fid ∧
    (generateSeatMap fid).length = 20 ∧
    (∀ row ∈ generateSeatMap fid, row.length = 6) ∧
    sumSeatFeesLenient (generateSeatMap fid).flatten seats = fee := by
  have hocc :
      generateSeatMap fid =
        (makeRows (3/10 + (seededRandom (hashInit fid)).2 * (3/10))
          (seededRandom (hashInit fid)).1
          ((List.range 20).map (fun i => i + 1))).2 := rfl
  refine ⟨rfl, ?_, ?_, sumSeatFees_agree _ seats fee h⟩
  · rw [hocc]
    rw [(makeRows_shape _ _ _).1]
    simp
  · rw [hocc]
    intro row hrow
    exact (makeRows_shape _ _ _).2 row hrow

/-- C9 (witness): at a concrete flight id the map is 20 × 6 and the two
fee computations agree on an accepted seat list. -/
theorem c9_generateSeatMap_witness :
    (generateSeatMap "f1").length = 20 ∧
    sumSeatFeesLenient (generateSeatMap "f1").flatten [] = 0 :=
  have h := c9_generateSeatMap_deterministic "f1" [] 0 rfl
  ⟨h.2.1, h.2.2.2⟩

/-! ## C10 — bookings mutate state only on success -/

/-- `Map.set` then `Map.get` returns the stored value. -/
theorem mapGet_mapSet_self {α : Type} (l : List (String × α)) (k : String)
    (v : α) : mapGet (mapSet l k v) k = some v := by
  induction l with
  | nil => simp [mapSet, mapGet]
  | cons p t ih =>
    by_cases hk : p.1 = k
    · simp [mapSet, mapGet, hk]
    · simpa [mapSet, mapGet, hk] using ih

/-- `Map.delete` then `Map.get` misses. -/
theorem mapGet_mapDelete_self {α : Type} (l : List (String × α)) (k : String) :
    mapGet (mapDelete l k) k = none := by
  induction l with
  | nil => rfl
  | cons p t ih =>
    by_cases hk : p.1 = k
    · simp only [mapDelete, mapGet] at ih ⊢
      simp [hk, ih]
    · simp only [mapDelete, mapGet] at ih ⊢
      simp [hk, ih]

/-- `createBooking` either fails leaving the state untouched, or
succeeds with the success-shaped result: booking stored, search
deleted. -/
theorem createBooking_fail_or_success (st : FlightsState) (sid : String)
    (ps : List Passenger) (cn t : String) :
    ((createBooking st sid ps cn t).1 = st ∧
      (createBooking st sid ps cn t).2.success = false) ∨
    (∃ b, (createBooking st sid ps cn t).2 =
        ⟨true, "Booking confirmed! Your confirmation number is " ++ cn, some b⟩ ∧
      b.confirmationNumber = cn ∧
      (createBooking st sid ps cn t).1 =
        ⟨mapDelete st.flightSearches sid, mapSet st.bookings cn b⟩) := by
  simp only [createBooking]
  repeat' split
  all_goals
    first
    | exact Or.inl ⟨rfl, rfl⟩
    | exact Or.inr ⟨_, rfl, rfl, rfl⟩

/-- `createHotelBooking` either fails leaving the state untouched, or
succeeds with the success-shaped result. -/
theorem createHotelBooking_fail_or_success (st : HotelsState) (sid : String)
    (gs : List Guest) (sr : Option String) (cn t : String) :
    ((createHotelBooking st sid gs sr cn t).1 = st ∧
      (createHotelBooking st sid gs sr cn t).2.success = false) ∨
    (∃ b, (createHotelBooking st sid gs sr cn t).2 =
        ⟨true, "Booking confirmed! Your confirmation number is " ++ cn, some b⟩ ∧
      b.confirmationNumber = cn ∧
      (createHotelBooking st sid gs sr cn t).1 =
        ⟨mapDelete st.hotelSearches sid, mapSet st.hotelBookings cn b⟩) := by
  simp only [createHotelBooking]
  repeat' split
  all_goals
    first
    | exact Or.inl ⟨rfl, rfl⟩
    | exact Or.inr ⟨_, rfl, rfl, rfl⟩

/-- A `createBooking` whose searchId misses the map fails immediately. -/
theorem createBooking_no_search (st : FlightsState) (sid : String)
    (ps : List Passenger) (cn t : String)
    (h : mapGet st.flightSearches sid = none) :
    createBooking st sid ps cn t =
      (st, ⟨false, "Search session not found", none⟩) := by
  simp [createBooking, h]

/-- A `createHotelBooking` whose searchId misses the map fails
immediately. -/
theorem createHotelBooking_no_search (st : HotelsState) (sid : String)
    (gs : List Guest) (sr : Option String) (cn t : String)
    (h : mapGet st.hotelSearches sid = none) :
    createHotelBooking st sid gs sr cn t =
      (st, ⟨false, "Search session not found", none⟩) := by
  simp [createHotelBooking, h]

/-- C10: `createBooking` mutates its maps only on success.  On
`success = false` the state is returned unchanged; on `success = true`
the returned booking is stored under its confirmation number,
the search entry is deleted, the stored booking is retrievable, and any
repeat `createBooking` for the same searchId fails.  The hotel
counterpart `createHotelBooking` satisfies the same property for
`hotelSearches`/`hotelBookings`. -/
theorem c10_booking_mutates_only_on_success (st : FlightsState)
    (hst : HotelsState) (sid hsid : String) (ps : List Passenger)
    (gs : List Guest) (sr : Option String) (cn t hcn ht : String) :
    (((createBooking st sid ps cn t).2.success = false →
        (createBooking st sid ps cn t).1 = st) ∧
      ((createBooking st sid ps cn t).2.success = true →
        ∃ b, (createBooking st sid ps cn t).2.booking = some b ∧
          b.confirmationNumber = cn ∧
          (createBooking st sid ps cn t).1.bookings = mapSet st.bookings cn b ∧
          (createBooking st sid ps cn t).1.flightSearches =
            mapDelete st.flightSearches sid ∧
          mapGet (createBooking st sid ps cn t).1.bookings cn = some b ∧
          ∀ ps2 cn2 t2,
            (createBooking (createBooking st sid ps cn t).1 sid ps2 cn2
              t2).2.success = false)) ∧
    (((createHotelBooking hst hsid gs sr hcn ht).2.success = false →
        (createHotelBooking hst hsid gs sr hcn ht).1 = hst) ∧
      ((createHotelBooking hst hsid gs sr hcn ht).2.success = true →
        ∃ b, (createHotelBooking hst hsid gs sr hcn ht).2.booking = some b ∧
          b.confirmationNumber = hcn ∧
          (createHotelBooking hst hsid gs sr hcn ht).1.hotelBookings =
            mapSet hst.hotelBookings hcn b ∧
          (createHotelBooking hst hsid gs sr hcn ht).1.hotelSearches =
            mapDelete hst.hotelSearches hsid ∧
          mapGet (createHotelBooking hst hsid gs sr hcn ht).1.hotelBookings hcn
            = some b ∧
          ∀ gs2 sr2 hcn2 ht2,
            (createHotelBooking (createHotelBooking hst hsid gs sr hcn ht).1
              hsid gs2 sr2 hcn2 ht2).2.success = false)) := by
  constructor
  · constructor
    · intro hf
      rcases createBooking_fail_or_success st sid ps cn t with
        ⟨h1, _⟩ | ⟨b, hb, _, _⟩
      · exact h1
      · rw [hb] at hf
        simp at hf
    · intro hs
      rcases createBooking_fail_or_success st sid ps cn t with
        ⟨_, h2⟩ | ⟨b, hb, hcn2, hstate⟩
      · rw [h2] at hs
        simp at hs
      · refine ⟨b, ?_, hcn2, ?_, ?_, ?_, ?_⟩
        · rw [hb]
        · rw [hstate]
        · rw [hstate]
        · rw [hstate]
          exact mapGet_mapSet_self _ _ _
        · intro ps2 cn2 t2
          rw [hstate]
          rw [createBooking_no_search _ _ _ _ _ (mapGet_mapDelete_self _ _)]
  · constructor
    · intro hf
      rcases createHotelBooking_fail_or_success hst hsid gs sr hcn ht with
        ⟨h1, _⟩ | ⟨b, hb, _, _⟩
      · exact h1
      · rw [hb] at hf
        simp at hf
    · intro hs
      rcases createHotelBooking_fail_or_success hst hsid gs sr hcn ht with
        ⟨_, h2⟩ | ⟨b, hb, hcn2, hstate⟩
      · rw [h2] at hs
        simp at hs
      · refine ⟨b, ?_, hcn2, ?_, ?_, ?_, ?_⟩
        · rw [hb]
        · rw [hstate]
        · rw [hstate]
        · rw [hstate]
          exact mapGet_mapSet_self _ _ _
        · intro gs2 sr2 hcn2b ht2
          rw [hstate]
          rw [createHotelBooking_no_search _ _ _ _ _ _
            (mapGet_mapDelete_self _ _)]

/-- A one-search flights state ready to book: flight `f1` selected,
seat `1C` chosen, one passenger expected. -/
def c10FlightsStateW : FlightsState :=
  { flightSearches :=
      [("s1",
        { id := "s1"
          flights :=
            [{ id := "f1"
               airline := ⟨"AA", "American Airlines", "#0078D2"⟩
               flightNumber := "AA100"
               origin :=
                 ⟨"JFK", "New York", "John F. Kennedy International", "US"⟩
               destination :=
                 ⟨"LAX", "Los Angeles", "Los Angeles International", "US"⟩
               departureTime := "06:00"
               arrivalTime := "11:30"
               duration := "5h 30m"
               stops := 0
               aircraft := "Boeing 737-800"
               price := 300
               cabinClass := .economy
               seatsAvailable := 20 }]
          searchParams :=
            { origin := "JFK", destination := "LAX", date := "2026-01-20",
              passengers := 1, cabinClass := .economy }
          selectedFlightId := some "f1"
          selectedSeats := some ["1C"] })]
    bookings := [] }

/-- A one-search hotels state ready to book: hotel `h1`, room `r1`,
one room selected. -/
def c10HotelsStateW : HotelsState :=
  { hotelSearches :=
      [("hs1",
        { id := "hs1"
          hotels :=
            [{ id := "h1", name := "Le Grand Paris", stars := 5,
               rooms := [⟨"r1", "Standard Room", 2, 150, 5⟩] }]
          searchParams :=
            { city := "Paris", checkIn := "2026-01-15",
              checkOut := "2026-01-18", guests := 1, rooms := 1, nights := 3 }
          selectedHotelId := some "h1"
          selectedRoomId := some "r1"
          selectedQuantity := some 1 })]
    hotelBookings := [] }

/-- C10 (witness): a successful flight booking stores the booking and
deletes the search so a repeat booking fails, and an unknown searchId
leaves the state untouched; same for the hotel counterpart. -/
theorem c10_booking_witness :
    (∃ b, (createBooking c10FlightsStateW "s1" [⟨"Ann Lee", "ann@example.com",
        "555"⟩] "ABC123" "2026-01-10").2.booking = some b ∧
      mapGet (createBooking c10FlightsStateW "s1" [⟨"Ann Lee",
        "ann@example.com", "555"⟩] "ABC123" "2026-01-10").1.bookings "ABC123" =
        some b) ∧
    (createBooking (createBooking c10FlightsStateW "s1" [⟨"Ann Lee",
        "ann@example.com", "555"⟩] "ABC123" "2026-01-10").1 "s1"
      [⟨"Ann Lee", "ann@example.com", "555"⟩] "XYZ789"
      "2026-01-11").2.success = false ∧
    (createBooking ⟨[], []⟩ "missing" [] "C0" "T0").1 = (⟨[], []⟩ : FlightsState) ∧
    (∃ b, (createHotelBooking c10HotelsStateW "hs1" [⟨"Ann Lee",
        "ann@example.com"⟩] none "HTLABC123" "2026-01-10").2.booking = some b ∧
      mapGet (createHotelBooking c10HotelsStateW "hs1" [⟨"Ann Lee",
        "ann@example.com"⟩] none "HTLABC123"
        "2026-01-10").1.hotelBookings "HTLABC123" = some b) ∧
    (createHotelBooking (createHotelBooking c10HotelsStateW "hs1" [⟨"Ann Lee",
        "ann@example.com"⟩] none "HTLABC123" "2026-01-10").1 "hs1"
      [⟨"Ann Lee", "ann@example.com"⟩] none "HTLXYZ789"
      "2026-01-11").2.success = false := by
  have h := c10_booking_mutates_only_on_success c10FlightsStateW
    c10HotelsStateW "s1" "hs1" [⟨"Ann Lee", "ann@example.com", "555"⟩]
    [⟨"Ann Lee", "ann@example.com"⟩] none "ABC123" "2026-01-10" "HTLABC123"
    "2026-01-10"
  have hfail := c10_booking_mutates_only_on_success (⟨[], []⟩ : FlightsState)
    c10HotelsStateW "missing" "hs1" [] [] none "C0" "T0" "H0" "T0"
  rcases (h.1.2 rfl) with ⟨b, hb, _, _, _, hget, hsecond⟩
  rcases (h.2.2 rfl) with ⟨hbk, hhb, _, _, _, hhget, hhsecond⟩
  exact ⟨⟨b, hb, hget⟩, hsecond _ _ _, hfail.1.1 rfl, ⟨hbk, hhb, hhget⟩,
    hhsecond _ _ _ _⟩

end McpApps
